import Mathlib

/-!
Verification of pure-gobpf: map creation, pinning and program loading.

A shallow embedding of `pkg/ebpf/loader.go` and `pkg/ebpf/map.go`.

The Go code talks to the operating system through three primitives:
`os.MkdirAll`, `os.Stat` and `unix.Syscall`.  The embedding is parametric in
a `Kernel σ`, a record giving the answer of each primitive and the next state
of the outside world.  Every embedded function returns an `Outcome`: the Go
return value, the final world state and the list of primitives it invoked, in
order.  Pointers passed to the kernel are modelled by the value they point at.

Machine integers are natural numbers; a conversion that can change the value
(`uint32(int)`, `int(uintptr)`) is written out with its modulus.  The target
is a 64-bit Linux platform (`int` and `uintptr` are 64 bits wide).
-/

namespace Gobpf

/-! ## Constants of `loader.go` / `map.go` -/

def BPF_MAP_TYPE_HASH : Nat := 1

def BPF_MAP_CREATE : Nat := 0
def BPF_PROG_LOAD : Nat := 5
def BPF_OBJ_PIN : Nat := 6

def PIN_NONE : Nat := 0
def PIN_OBJECT_NS : Nat := 1
def PIN_GLOBAL_NS : Nat := 2
def PIN_CUSTOM_NS : Nat := 3

def sizeofStructBpfInsn : Nat := 8

/-! ## Constants of the libraries the code imports -/

/-- Value of `unix.SYS_BPF` in golang.org/x/sys/unix on linux/amd64. -/
def SYS_BPF : Nat := 321

/-- Value of `netlink.BPF_PROG_TYPE_UNSPEC` in vishvananda/netlink. -/
def BPF_PROG_TYPE_UNSPEC : Nat := 0

/-- Value of `netlink.BPF_PROG_TYPE_XDP` in vishvananda/netlink. -/
def BPF_PROG_TYPE_XDP : Nat := 6

def ENOENT : Nat := 2
def EBADF : Nat := 9
def EEXIST : Nat := 17
def ENOTDIR : Nat := 20
def EINVAL : Nat := 22
def ENOSYS : Nat := 38

/-! ## Integer conversions -/

/-- Go conversion `int(x)` of a `uintptr` on a 64-bit platform: the same 64
bits read as a signed number. -/
def intOfUintptr (x : Nat) : Int :=
  if x % 2 ^ 64 < 2 ^ 63 then ((x % 2 ^ 64 : Nat) : Int)
  else ((x % 2 ^ 64 : Nat) : Int) - 2 ^ 64

/-- Go conversion `uint32(x)` of an `int`: the low 32 bits. -/
def uint32OfInt (x : Int) : Nat := (x % 2 ^ 32).toNat

/-- Go conversion `uint32(x)` of a non-negative `int`. -/
def uint32OfNat (x : Nat) : Nat := x % 2 ^ 32

/-- The raw value `-1` of a `uintptr`, returned by a failed system call. -/
def minusOne : Nat := 2 ^ 64 - 1

/-! ## Data model -/

/-- An error of package `os`, reduced to its error number. -/
structure OsError where
  errno : Nat
  deriving DecidableEq, Repr

/-- Go `os.IsNotExist(err)`. -/
def IsNotExist (err : Option OsError) : Bool :=
  match err with
  | some e => e.errno == ENOENT
  | none => false

/-- An argument rendered into a `fmt.Errorf` message. -/
inductive FmtArg where
  | str (s : String)
  | err (e : OsError)
  | errno (e : Nat)
  deriving DecidableEq, Repr

/-- A Go `error` value as produced by the code: `fmt.Errorf(format, args...)`,
an error handed through from `elf.Section.Data`, or a bare `syscall.Errno`. -/
inductive GoError where
  | errorf (format : String) (args : List FmtArg)
  | data (msg : String)
  | errno (e : Nat)
  deriving DecidableEq, Repr

/-- A `[16]byte` array. -/
abbrev Name16 := { l : List Nat // l.length = 16 }

namespace Loader

/-- The struct `BpfMapDef` of `loader.go`. -/
structure BpfMapDef where
  MapType : Nat
  KeySize : Nat
  ValueSize : Nat
  MaxEntries : Nat
  Flags : Nat
  InnerMapFd : Nat
  Pinning : Nat
  deriving DecidableEq, Repr

/-- The struct `BpfMapData` of `loader.go`. -/
structure BpfMapData where
  Def : BpfMapDef
  numaNode : Nat
  Name : Name16
  deriving DecidableEq, Repr

/-- The struct `BpfMapPin` of `loader.go`; `Pathname` holds the NUL-terminated
buffer the pointer refers to. -/
structure BpfMapPin where
  Pathname : String
  Fd : Nat
  FileFlags : Nat
  deriving DecidableEq, Repr

end Loader

namespace MapGo

/-- The struct `BpfMapDef` of `map.go`. -/
structure BpfMapDef where
  MapType : Nat
  KeySize : Nat
  ValueSize : Nat
  MaxEntries : Nat
  Flags : Nat
  deriving DecidableEq, Repr

/-- The struct `BpfMapData` of `map.go`. -/
structure BpfMapData where
  Fd : Int
  Name : String
  Def : BpfMapDef
  deriving DecidableEq, Repr

/-- The anonymous struct `uba` built by `CreateMap` in `map.go`. -/
structure Uba where
  mapType : Nat
  keySize : Nat
  valueSize : Nat
  maxEntries : Nat
  mapFlags : Nat
  deriving DecidableEq, Repr

end MapGo

/-- The struct `netlink.BPFAttr` of vishvananda/netlink; `Insns`, `License` and
`LogBuf` hold what the pointers refer to (`LogBuf` only its length). -/
structure BPFAttr where
  ProgType : Nat
  InsnCnt : Nat
  Insns : List Nat
  License : String
  LogLevel : Nat
  LogSize : Nat
  LogBuf : Nat
  KernVersion : Nat
  deriving DecidableEq, Repr

/-- The attribute buffer handed to the `bpf` system call. -/
inductive Attr where
  | mapData (a : Loader.BpfMapData)
  | uba (a : MapGo.Uba)
  | mapPin (a : Loader.BpfMapPin)
  | prog (a : BPFAttr)
  deriving DecidableEq, Repr

/-- Byte sizes reported by `Sizeof` for the attribute structs on 64-bit Linux. -/
def sizeofBpfMapData : Nat := 48
def sizeofUba : Nat := 20
def sizeofBpfMapPin : Nat := 16
def sizeofBPFAttr : Nat := 48

/-- The three results of `unix.Syscall`. -/
structure SysRet where
  r1 : Nat
  r2 : Nat
  errno : Nat
  deriving DecidableEq, Repr

/-- The outside world: the answer of each primitive the code invokes, and the
state of the world after it. -/
structure Kernel (σ : Type) where
  MkdirAll : String → Nat → σ → Option OsError × σ
  Stat : String → σ → Option OsError × σ
  Syscall : Nat → Nat → Attr → Nat → σ → SysRet × σ

/-- One invocation of a primitive. -/
inductive Event where
  | mkdirAll (path : String) (perm : Nat)
  | stat (path : String)
  | syscall (trap : Nat) (cmd : Nat) (attr : Attr) (size : Nat)
  deriving DecidableEq, Repr

/-- Whether an event is a system call. -/
def Event.isSyscall : Event → Bool
  | .syscall _ _ _ _ => true
  | _ => false

/-- What a call of an embedded function leaves behind. -/
structure Outcome (σ : Type) (α : Type) where
  result : α
  state : σ
  trace : List Event
  deriving DecidableEq, Repr

/-- A Go call either returns or panics. -/
inductive GoResult (α : Type) where
  | returned (v : α)
  | panicked (msg : String)
  deriving DecidableEq, Repr

/-- The part of `elf.Section` the code reads: the result of `Data()`. -/
structure Section where
  Data : Except String (List Nat)

/-! ## `path/filepath` -/

namespace filepath

/-- The characters up to and including the last separator. -/
def upToLastSep (cs : List Char) : List Char :=
  (cs.reverse.dropWhile (fun c => c != '/')).reverse

/-- Removal of trailing separators. -/
def stripTrailingSep (cs : List Char) : List Char :=
  (cs.reverse.dropWhile (fun c => c == '/')).reverse

/-- Go `filepath.Dir` on Unix for paths that are already clean apart from a
trailing separator (no `.` or `..` element, no doubled separator): everything
but the last element, trailing separators removed. -/
def Dir (path : String) : String :=
  let d := upToLastSep path.data
  if d = [] then "."
  else
    let c := stripTrailingSep d
    if c = [] then "/" else String.mk c

end filepath

/-! ## `loader.go` -/

namespace Loader

/-- Go `(*BpfMapData).CreateMap` of `loader.go`. -/
def CreateMap {σ : Type} (k : Kernel σ) (m : BpfMapData) (s : σ) :
    Outcome σ (Int × Option GoError) :=
  let mapCont : BpfMapData :=
    { Def :=
        { MapType := m.Def.MapType
          KeySize := m.Def.KeySize
          ValueSize := m.Def.ValueSize
          MaxEntries := m.Def.MaxEntries
          Flags := m.Def.Flags
          InnerMapFd := 0
          Pinning := 0 }
      numaNode := 0
      Name := m.Name }
  let mapDataSize := sizeofBpfMapData
  let r := k.Syscall SYS_BPF BPF_MAP_CREATE (Attr.mapData mapCont) mapDataSize s
  let ret := r.1.r1
  let errno := r.1.errno
  let tr := [Event.syscall SYS_BPF BPF_MAP_CREATE (Attr.mapData mapCont) mapDataSize]
  if errno < 0 then
    ⟨(intOfUintptr ret,
      some (GoError.errorf "Unable to create map: %s" [FmtArg.errno errno])), r.2, tr⟩
  else
    ⟨(intOfUintptr ret, none), r.2, tr⟩

/-- Go `(*BpfMapData).PinMap` of `loader.go`. -/
def PinMap {σ : Type} (k : Kernel σ) (m : BpfMapData) (mapFD : Int) (s : σ) :
    Outcome σ (Option GoError) :=
  if m.Def.Pinning = PIN_NONE then
    ⟨none, s, []⟩
  else if m.Def.Pinning = PIN_GLOBAL_NS then
    let tcDir := "/sys/fs/bpf/tc"
    let r1 := k.MkdirAll tcDir 0o755 s
    let t1 := [Event.mkdirAll tcDir 0o755]
    match r1.1 with
    | some err =>
      ⟨some (GoError.errorf "error creating directory %q: %v"
        [FmtArg.str tcDir, FmtArg.err err]), r1.2, t1⟩
    | none =>
      let pinPath := tcDir ++ "/globals/my-name"
      let r2 := k.MkdirAll (filepath.Dir pinPath) 0o755 r1.2
      let t2 := t1 ++ [Event.mkdirAll (filepath.Dir pinPath) 0o755]
      match r2.1 with
      | some err =>
        ⟨some (GoError.errorf "error creating directory %q: %v"
          [FmtArg.str (filepath.Dir pinPath), FmtArg.err err]), r2.2, t2⟩
      | none =>
        let r3 := k.Stat pinPath r2.2
        let t3 := t2 ++ [Event.stat pinPath]
        match r3.1 with
        | none =>
          ⟨some (GoError.errorf "aborting, found file at %q" [FmtArg.str pinPath]),
            r3.2, t3⟩
        | some err =>
          if !IsNotExist (some err) then
            ⟨some (GoError.errorf "failed to stat %q: %v"
              [FmtArg.str pinPath, FmtArg.err err]), r3.2, t3⟩
          else
            let cPath := pinPath ++ "\x00"
            let pinAttr : BpfMapPin :=
              { Fd := uint32OfInt mapFD
                Pathname := cPath
                FileFlags := 0 }
            let pinDataSize := sizeofBpfMapPin
            let r4 := k.Syscall SYS_BPF BPF_OBJ_PIN (Attr.mapPin pinAttr) pinDataSize r3.2
            let errno := r4.1.errno
            let t4 := t3 ++ [Event.syscall SYS_BPF BPF_OBJ_PIN (Attr.mapPin pinAttr) pinDataSize]
            if errno < 0 then
              ⟨some (GoError.errorf "Unable to pin map: %s" [FmtArg.errno errno]), r4.2, t4⟩
            else
              ⟨none, r4.2, t4⟩
  else
    ⟨none, s, []⟩

/-- Go `LoadProg` of `loader.go`. Taking the address `&data[0]` of an empty
slice panics. The second `if err != nil` of the source is unreachable (`err`
is nil there) and has no counterpart. -/
def LoadProg {σ : Type} (k : Kernel σ) (progType : String) (dataProg : Section)
    (_licenseStr : String) (s : σ) : Outcome σ (GoResult (Int × Option GoError)) :=
  let prog_type : Nat :=
    if progType = "xdp" then BPF_PROG_TYPE_XDP else BPF_PROG_TYPE_UNSPEC
  let logBufLen : Nat := 65535
  match dataProg.Data with
  | .error err => ⟨.returned (0, some (GoError.data err)), s, []⟩
  | .ok data =>
    if data.length = 0 then
      ⟨.panicked "runtime error: index out of range [0] with length 0", s, []⟩
    else
      let license : String := "licenseStr"
      let program : BPFAttr :=
        { ProgType := prog_type
          LogBuf := logBufLen
          LogSize := uint32OfNat (logBufLen - 1)
          LogLevel := 1
          Insns := data
          InsnCnt := uint32OfNat (data.length / sizeofStructBpfInsn)
          License := license
          KernVersion := 0 }
      let r := k.Syscall SYS_BPF BPF_PROG_LOAD (Attr.prog program) sizeofBPFAttr s
      let fd := r.1.r1
      let errno := r.1.errno
      let tr := [Event.syscall SYS_BPF BPF_PROG_LOAD (Attr.prog program) sizeofBPFAttr]
      if errno ≠ 0 then
        ⟨.returned (0, some (GoError.errno errno)), r.2, tr⟩
      else
        ⟨.returned (intOfUintptr fd, none), r.2, tr⟩

end Loader

/-! ## `map.go` -/

namespace MapGo

/-- Go `(*BpfMapData).CreateMap` of `map.go`. -/
def CreateMap {σ : Type} (k : Kernel σ) (m : BpfMapData) (s : σ) :
    Outcome σ (Int × Option GoError) :=
  let uba : Uba :=
    { mapType := m.Def.MapType
      keySize := m.Def.KeySize
      valueSize := m.Def.ValueSize
      maxEntries := m.Def.MaxEntries
      mapFlags := m.Def.Flags }
  let r := k.Syscall SYS_BPF BPF_MAP_CREATE (Attr.uba uba) sizeofUba s
  let ret := r.1.r1
  let err := r.1.errno
  let tr := [Event.syscall SYS_BPF BPF_MAP_CREATE (Attr.uba uba) sizeofUba]
  if ret ≠ 0 then
    ⟨(intOfUintptr ret, none), r.2, tr⟩
  else
    ⟨(0, some (GoError.errorf "Unable to create map: %s" [FmtArg.errno err])), r.2, tr⟩

end MapGo

/-- The C string held by a buffer: the characters before the first NUL. -/
def cString (buf : String) : String :=
  String.mk (buf.data.takeWhile (fun c => c != Char.ofNat 0))

/-! ## A reference kernel

A small executable model of the outside world, used to run the code on
concrete inputs: a set of directories, a set of pinned objects and a set of
open handles. -/

/-- State of the reference kernel. -/
structure SimState where
  dirs : List String
  pins : List String
  fds : List Nat
  deriving DecidableEq, Repr

namespace Sim

/-- Every ancestor directory of a path, and the path itself. -/
def dirChain : List Char → List Char → List String
  | acc, [] => if acc = [] then [] else [String.mk acc.reverse]
  | acc, c :: cs =>
    if c = '/' ∧ acc ≠ [] then String.mk acc.reverse :: dirChain (c :: acc) cs
    else dirChain (c :: acc) cs

/-- The smallest handle above every open one. -/
def freshFd (fds : List Nat) : Nat := fds.foldl (fun a b => max a (b + 1)) 3

/-- A failed system call. -/
def fail (e : Nat) (s : SimState) : SysRet × SimState := (⟨minusOne, 0, e⟩, s)

/-- A system call that opens a new handle. -/
def openFd (s : SimState) : SysRet × SimState :=
  (⟨freshFd s.fds, 0, 0⟩, { s with fds := freshFd s.fds :: s.fds })

/-- Reference `os.MkdirAll`: fails on a path that is a pinned object, and
otherwise records the directory and its ancestors. -/
def MkdirAll (path : String) (_perm : Nat) (s : SimState) : Option OsError × SimState :=
  if path ∈ s.pins then (some ⟨ENOTDIR⟩, s)
  else
    (none,
      { s with dirs := s.dirs ++ (dirChain [] path.data).filter (fun d => d ∉ s.dirs) })

/-- Reference `os.Stat`: a path exists when it is a directory or a pinned
object. -/
def Stat (path : String) (s : SimState) : Option OsError × SimState :=
  if path ∈ s.pins ∨ path ∈ s.dirs then (none, s) else (some ⟨ENOENT⟩, s)

/-- Reference `bpf` system call. -/
def Syscall (trap cmd : Nat) (attr : Attr) (_size : Nat) (s : SimState) :
    SysRet × SimState :=
  if trap ≠ SYS_BPF then fail ENOSYS s
  else
    match attr with
    | .mapData a =>
      if cmd ≠ BPF_MAP_CREATE then fail EINVAL s
      else if a.Def.KeySize = 0 ∨ a.Def.ValueSize = 0 ∨ a.Def.MaxEntries = 0 then
        fail EINVAL s
      else openFd s
    | .uba a =>
      if cmd ≠ BPF_MAP_CREATE then fail EINVAL s
      else if a.keySize = 0 ∨ a.valueSize = 0 ∨ a.maxEntries = 0 then fail EINVAL s
      else openFd s
    | .mapPin a =>
      if cmd ≠ BPF_OBJ_PIN then fail EINVAL s
      else if a.Fd ∉ s.fds then fail EBADF s
      else if cString a.Pathname ∈ s.pins ∨ cString a.Pathname ∈ s.dirs then
        fail EEXIST s
      else if filepath.Dir (cString a.Pathname) ∉ s.dirs then fail ENOENT s
      else (⟨0, 0, 0⟩, { s with pins := cString a.Pathname :: s.pins })
    | .prog a =>
      if cmd ≠ BPF_PROG_LOAD then fail EINVAL s
      else if a.InsnCnt = 0 then fail EINVAL s
      else openFd s

/-- The reference kernel. -/
def kernel : Kernel SimState := ⟨MkdirAll, Stat, Syscall⟩

/-- A clean filesystem with the single open handle `h`. -/
def clean (h : Nat) : SimState := ⟨[], [], [h]⟩

/-- A kernel that rejects every system call with the given error number and
otherwise behaves like the reference kernel. -/
def rejecting (e : Nat) : Kernel SimState := ⟨MkdirAll, Stat, fun _ _ _ _ s => fail e s⟩

end Sim

/-! ## A kernel with dangling symbolic links

The reference kernel extended with symbolic links whose target does not
exist. `os.Stat` follows symbolic links and reports such an entry as not
existing; the kernel refuses to create anything over it. -/

/-- State of the kernel with dangling symbolic links. -/
structure LinkState where
  fs : SimState
  links : List String
  deriving DecidableEq, Repr

namespace Link

/-- An entry exists at the path: a dangling link, a pinned object or a
directory. -/
def entryExists (s : LinkState) (p : String) : Prop :=
  p ∈ s.links ∨ p ∈ s.fs.pins ∨ p ∈ s.fs.dirs

/-- Directory creation: refused over a dangling link. -/
def MkdirAll (path : String) (perm : Nat) (s : LinkState) : Option OsError × LinkState :=
  if path ∈ s.links then (some ⟨EEXIST⟩, s)
  else ((Sim.MkdirAll path perm s.fs).1, { s with fs := (Sim.MkdirAll path perm s.fs).2 })

/-- Stat follows the link: a dangling link is reported as not existing. -/
def Stat (path : String) (s : LinkState) : Option OsError × LinkState :=
  if path ∈ s.links then (some ⟨ENOENT⟩, s) else ((Sim.Stat path s.fs).1, s)

/-- The `bpf` system call: a pin over a dangling link is refused, everything
else is answered by the reference kernel. -/
def Syscall (trap cmd : Nat) (attr : Attr) (size : Nat) (s : LinkState) :
    SysRet × LinkState :=
  match attr with
  | .mapPin a =>
    if trap = SYS_BPF ∧ cmd = BPF_OBJ_PIN ∧ cString a.Pathname ∈ s.links then
      (⟨minusOne, 0, EEXIST⟩, s)
    else
      ((Sim.Syscall trap cmd attr size s.fs).1,
        { s with fs := (Sim.Syscall trap cmd attr size s.fs).2 })
  | _ =>
    ((Sim.Syscall trap cmd attr size s.fs).1,
      { s with fs := (Sim.Syscall trap cmd attr size s.fs).2 })

/-- The kernel with dangling symbolic links. -/
def kernel : Kernel LinkState := ⟨MkdirAll, Stat, Syscall⟩

end Link

/-! ## Helper values -/

/-- The name `test_map`, NUL-padded to 16 bytes. -/
def testMapName : Name16 :=
  ⟨[116, 101, 115, 116, 95, 109, 97, 112, 0, 0, 0, 0, 0, 0, 0, 0], rfl⟩

/-- A name of 15 bytes and its terminator. -/
def name15 : Name16 :=
  ⟨[97, 97, 97, 97, 97, 97, 97, 97, 97, 97, 97, 97, 97, 97, 97, 0], rfl⟩

/-- A name filling all 16 bytes, without terminator. -/
def name16 : Name16 :=
  ⟨[97, 97, 97, 97, 97, 97, 97, 97, 97, 97, 97, 97, 97, 97, 97, 97], rfl⟩

/-- The hash-map definition of the end-to-end scenario, with a pinning mode. -/
def hashDef (pinning : Nat) : Loader.BpfMapDef :=
  { MapType := BPF_MAP_TYPE_HASH, KeySize := 4, ValueSize := 8, MaxEntries := 1024,
    Flags := 0, InnerMapFd := 0, Pinning := pinning }

/-- The map of the end-to-end scenario. -/
def testMap (pinning : Nat) : Loader.BpfMapData := ⟨hashDef pinning, 0, testMapName⟩

/-- The path `PinMap` binds in global-namespace mode. -/
def globalPinPath : String := "/sys/fs/bpf/tc/globals/my-name"

/-- The directory of `globalPinPath`. -/
def globalsDir : String := "/sys/fs/bpf/tc/globals"

/-- The pin request `PinMap` builds for a handle. -/
def pinRequest (mapFD : Int) : Loader.BpfMapPin :=
  { Pathname := globalPinPath ++ "\x00", Fd := uint32OfInt mapFD, FileFlags := 0 }

/-- The pin-object event `PinMap` issues for a handle. -/
def pinEvent (mapFD : Int) : Event :=
  Event.syscall SYS_BPF BPF_OBJ_PIN (Attr.mapPin (pinRequest mapFD)) sizeofBpfMapPin

/-- The world after the two directory creations of `PinMap`. -/
def afterMkdirs {σ : Type} (k : Kernel σ) (s : σ) : σ :=
  (k.MkdirAll globalsDir 0o755 (k.MkdirAll "/sys/fs/bpf/tc" 0o755 s).2).2

/-- Both directory creations of `PinMap` succeed from state `s`. -/
def mkdirsOk {σ : Type} (k : Kernel σ) (s : σ) : Bool :=
  (k.MkdirAll "/sys/fs/bpf/tc" 0o755 s).1.isNone &&
    (k.MkdirAll globalsDir 0o755 (k.MkdirAll "/sys/fs/bpf/tc" 0o755 s).2).1.isNone

/-- The answer of the kernel to the pin request of `PinMap` started in `s`. -/
def pinAnswer {σ : Type} (k : Kernel σ) (mapFD : Int) (s : σ) : SysRet × σ :=
  k.Syscall SYS_BPF BPF_OBJ_PIN (Attr.mapPin (pinRequest mapFD)) sizeofBpfMapPin
    (k.Stat globalPinPath (afterMkdirs k s)).2

/-- A clean filesystem on which directory creation and the kernel call
succeed: both directory creations succeed, the pin path is reported as not
existing, and the kernel accepts the pin request. -/
def cleanRun {σ : Type} (k : Kernel σ) (mapFD : Int) (s : σ) : Bool :=
  mkdirsOk k s && IsNotExist (k.Stat globalPinPath (afterMkdirs k s)).1 &&
    ((pinAnswer k mapFD s).1.errno == 0)

/-- Laws of a kernel model with a notion of existing path: `os.Stat` finds an
existing path, `os.MkdirAll` and `os.Stat` remove nothing, and a successful
pin-object call creates the path it was given. -/
structure PinLaws {σ : Type} (k : Kernel σ) (pathExists : σ → String → Prop) : Prop where
  stat_found : ∀ s p, pathExists s p → (k.Stat p s).1 = none
  stat_keeps : ∀ s p q, pathExists s q → pathExists (k.Stat p s).2 q
  mkdir_keeps : ∀ s d perm q, pathExists s q → pathExists (k.MkdirAll d perm s).2 q
  pin_creates : ∀ s a size,
    (k.Syscall SYS_BPF BPF_OBJ_PIN (Attr.mapPin a) size s).1.errno = 0 →
      pathExists (k.Syscall SYS_BPF BPF_OBJ_PIN (Attr.mapPin a) size s).2 (cString a.Pathname)

/-- Existence of a path in the reference kernel. -/
def Sim.pathExists (s : SimState) (p : String) : Prop := p ∈ s.pins ∨ p ∈ s.dirs

/-- The load request `LoadProg` builds for a program type and a blob. -/
def loadRequest (progType : String) (data : List Nat) : BPFAttr :=
  { ProgType := if progType = "xdp" then BPF_PROG_TYPE_XDP else BPF_PROG_TYPE_UNSPEC
    InsnCnt := (data.length / 8) % 2 ^ 32
    Insns := data
    License := "licenseStr"
    LogLevel := 1
    LogSize := 65534
    LogBuf := 65535
    KernVersion := 0 }

/-- What `LoadProg` returns for an answer of the kernel: `(0, errno)` when the
error number is non-zero, the handle with a nil error otherwise. -/
def loadAnswer (r : SysRet) : GoResult (Int × Option GoError) :=
  if r.errno ≠ 0 then .returned (0, some (GoError.errno r.errno))
  else .returned (intOfUintptr r.r1, none)

/-- The error `PinMap` returns when the pin path is already there. -/
def foundError : GoError :=
  GoError.errorf "aborting, found file at %q" [FmtArg.str globalPinPath]

/-- The errors `PinMap` returns for a filesystem conflict: the pin path is
already there, or a directory could not be created. -/
def isConflictError : GoError → Bool
  | .errorf format _ =>
    format == "aborting, found file at %q" || format == "error creating directory %q: %v"
  | _ => false

/-! ## Helper lemmas -/

theorem tcDir_append : "/sys/fs/bpf/tc" ++ "/globals/my-name" = globalPinPath := by decide

theorem dir_globalPinPath : filepath.Dir globalPinPath = globalsDir := by decide

theorem cString_globalPinPath : cString (globalPinPath ++ "\x00") = globalPinPath := by decide

theorem cString_pinRequest (mapFD : Int) :
    cString (pinRequest mapFD).Pathname = globalPinPath := cString_globalPinPath

/-- In global-namespace mode, when the directories are created and the pin
path is reported as not existing, `PinMap` issues the pin request and returns
nil whatever the kernel answers. -/
theorem PinMap_global_absent {σ : Type} (k : Kernel σ) (m : Loader.BpfMapData) (mapFD : Int)
    (s : σ) (hm : m.Def.Pinning = PIN_GLOBAL_NS) (hd : mkdirsOk k s = true)
    (hs : IsNotExist (k.Stat globalPinPath (afterMkdirs k s)).1 = true) :
    Loader.PinMap k m mapFD s =
      ⟨none, (pinAnswer k mapFD s).2,
        [Event.mkdirAll "/sys/fs/bpf/tc" 0o755, Event.mkdirAll globalsDir 0o755,
          Event.stat globalPinPath, pinEvent mapFD]⟩ := by
  have hne : PIN_GLOBAL_NS ≠ PIN_NONE := by decide
  simp only [mkdirsOk, Bool.and_eq_true, Option.isNone_iff_eq_none] at hd
  obtain ⟨h1, h2⟩ := hd
  unfold Loader.PinMap
  simp only [hm, hne, if_false, if_true, tcDir_append, dir_globalPinPath, h1, h2]
  unfold afterMkdirs at hs
  cases hst : (k.Stat globalPinPath (k.MkdirAll globalsDir 0o755
      (k.MkdirAll "/sys/fs/bpf/tc" 0o755 s).2).2).1 with
  | none => rw [hst] at hs; simp [IsNotExist] at hs
  | some err =>
    rw [hst] at hs
    simp [hs, pinAnswer, pinEvent, pinRequest, afterMkdirs]

/-- In global-namespace mode, when the directories are created and the pin
path is found, `PinMap` stops with the found-file error before any system
call. -/
theorem PinMap_global_found {σ : Type} (k : Kernel σ) (m : Loader.BpfMapData) (mapFD : Int)
    (s : σ) (hm : m.Def.Pinning = PIN_GLOBAL_NS) (hd : mkdirsOk k s = true)
    (hs : (k.Stat globalPinPath (afterMkdirs k s)).1 = none) :
    Loader.PinMap k m mapFD s =
      ⟨some foundError, (k.Stat globalPinPath (afterMkdirs k s)).2,
        [Event.mkdirAll "/sys/fs/bpf/tc" 0o755, Event.mkdirAll globalsDir 0o755,
          Event.stat globalPinPath]⟩ := by
  have hne : PIN_GLOBAL_NS ≠ PIN_NONE := by decide
  simp only [mkdirsOk, Bool.and_eq_true, Option.isNone_iff_eq_none] at hd
  obtain ⟨h1, h2⟩ := hd
  unfold afterMkdirs at hs
  unfold Loader.PinMap
  simp only [hm, hne, if_false, if_true, tcDir_append, dir_globalPinPath, h1, h2, hs]
  simp [foundError, afterMkdirs]

/-- In global-namespace mode, when the pin path exists, `PinMap` returns an
error, issues no system call, and the path still exists afterwards. -/
theorem PinMap_global_existing {σ : Type} (k : Kernel σ) (pathExists : σ → String → Prop)
    (laws : PinLaws k pathExists) (m : Loader.BpfMapData) (mapFD : Int) (s : σ)
    (hm : m.Def.Pinning = PIN_GLOBAL_NS) (hex : pathExists s globalPinPath) :
    (∃ err, (Loader.PinMap k m mapFD s).result = some err ∧ isConflictError err = true) ∧
      (∀ e ∈ (Loader.PinMap k m mapFD s).trace, e.isSyscall = false) ∧
      pathExists (Loader.PinMap k m mapFD s).state globalPinPath := by
  have hne : PIN_GLOBAL_NS ≠ PIN_NONE := by decide
  have e1 := laws.mkdir_keeps s "/sys/fs/bpf/tc" 0o755 globalPinPath hex
  have e2 := laws.mkdir_keeps _ globalsDir 0o755 globalPinPath e1
  have e3 := laws.stat_found _ globalPinPath e2
  have e4 := laws.stat_keeps _ globalPinPath globalPinPath e2
  unfold Loader.PinMap
  simp only [hm, hne, if_false, if_true, tcDir_append, dir_globalPinPath]
  cases h1 : (k.MkdirAll "/sys/fs/bpf/tc" 0o755 s).1 with
  | some err => exact ⟨⟨_, rfl, rfl⟩, by simp [Event.isSyscall], e1⟩
  | none =>
    cases h2 : (k.MkdirAll globalsDir 0o755 (k.MkdirAll "/sys/fs/bpf/tc" 0o755 s).2).1 with
    | some err => exact ⟨⟨_, rfl, rfl⟩, by simp [Event.isSyscall], e2⟩
    | none =>
      simp only [e3]
      exact ⟨⟨_, rfl, rfl⟩, by simp [Event.isSyscall], e4⟩

/-- The reference kernel satisfies the laws of a kernel model. -/
theorem Sim.pinLaws : PinLaws Sim.kernel Sim.pathExists where
  stat_found := by
    intro s p h
    have h2 : p ∈ s.pins ∨ p ∈ s.dirs := h
    simp only [Sim.kernel, Sim.Stat]
    rw [if_pos h2]
  stat_keeps := by
    intro s p q h
    simp only [Sim.kernel, Sim.Stat]
    split <;> exact h
  mkdir_keeps := by
    intro s d perm q h
    simp only [Sim.kernel, Sim.MkdirAll]
    split
    · exact h
    · rcases h with h | h
      · exact Or.inl h
      · exact Or.inr (List.mem_append_left _ h)
  pin_creates := by
    intro s a size h
    simp only [Sim.kernel, Sim.Syscall] at h ⊢
    have hbpf : ¬ (SYS_BPF ≠ SYS_BPF) := fun hh => hh rfl
    have hcmd : ¬ (BPF_OBJ_PIN ≠ BPF_OBJ_PIN) := fun hh => hh rfl
    simp only [if_neg hbpf, if_neg hcmd] at h ⊢
    split at h
    · exact absurd h (by simp [Sim.fail, EBADF])
    · split at h
      · exact absurd h (by simp [Sim.fail, EEXIST])
      · split at h
        · exact absurd h (by simp [Sim.fail, ENOENT])
        · rename_i h1 h2 h3
          rw [if_neg h1, if_neg h2, if_neg h3]
          exact Or.inl (List.mem_cons_self _ _)

theorem intOfUintptr_minusOne : intOfUintptr minusOne = -1 := by decide

/-- For a non-empty blob, `LoadProg` issues the load request and returns what
the kernel answers. -/
theorem LoadProg_nonempty {σ : Type} (k : Kernel σ) (progType : String) (data : List Nat)
    (licenseStr : String) (s : σ) (hne : data.length ≠ 0) :
    Loader.LoadProg k progType ⟨.ok data⟩ licenseStr s =
      ⟨loadAnswer (k.Syscall SYS_BPF BPF_PROG_LOAD (Attr.prog (loadRequest progType data))
          sizeofBPFAttr s).1,
        (k.Syscall SYS_BPF BPF_PROG_LOAD (Attr.prog (loadRequest progType data))
          sizeofBPFAttr s).2,
        [Event.syscall SYS_BPF BPF_PROG_LOAD (Attr.prog (loadRequest progType data))
          sizeofBPFAttr]⟩ := by
  have hreq : ∀ pt : Nat,
      pt = (if progType = "xdp" then BPF_PROG_TYPE_XDP else BPF_PROG_TYPE_UNSPEC) →
      (⟨pt, uint32OfNat (data.length / sizeofStructBpfInsn), data, "licenseStr", 1,
        uint32OfNat (65535 - 1), 65535, 0⟩ : BPFAttr) = loadRequest progType data := by
    intro pt hpt
    rw [hpt]
    rfl
  unfold Loader.LoadProg
  simp only [hne, if_false, loadAnswer]
  rw [hreq _ rfl]
  split <;> rfl

/-! ## Map creation -/

/-- C1 (fails on the code): when the kernel rejects the create-map call (raw
return -1, any error number `e`), `CreateMap` of `loader.go` and `CreateMap`
of `map.go` both return the handle `-1` together with a nil error. -/
theorem CreateMap_rejected_returns_minus_one_nil (e : Nat) (m : Loader.BpfMapData)
    (m2 : MapGo.BpfMapData) (s : SimState) :
    (Loader.CreateMap (Sim.rejecting e) m s).result = (-1, none) ∧
      (MapGo.CreateMap (Sim.rejecting e) m2 s).result = (-1, none) := by
  constructor
  · simp [Loader.CreateMap, Sim.rejecting, Sim.fail, intOfUintptr_minusOne]
  · have h : minusOne ≠ 0 := by decide
    simp [MapGo.CreateMap, Sim.rejecting, Sim.fail, intOfUintptr_minusOne, h]

/-- C9, counterexample: a name filling all 16 bytes is not rejected; the
create-map system call is issued with it and its handle is returned. -/
theorem CreateMap_name16_reaches_kernel :
    Loader.CreateMap Sim.kernel ⟨hashDef PIN_NONE, 0, name16⟩ (Sim.clean 5) =
      ⟨(6, none), ⟨[], [], [6, 5]⟩,
        [Event.syscall SYS_BPF BPF_MAP_CREATE
          (Attr.mapData ⟨hashDef PIN_NONE, 0, name16⟩) sizeofBpfMapData]⟩ := by
  decide

/-- C9, amended: `CreateMap` of `loader.go` validates no name. Whatever the 16
bytes of `Name` are, it issues exactly one create-map system call carrying
them unchanged, so a 15-byte name with terminator and a 16-byte name without
one are both forwarded; `CreateMap` of `map.go` issues its call independently
of the name. -/
theorem CreateMap_forwards_any_name {σ : Type} (k : Kernel σ) (m : Loader.BpfMapData)
    (m2 : MapGo.BpfMapData) (n : String) (s : σ) :
    (Loader.CreateMap k m s).trace =
        [Event.syscall SYS_BPF BPF_MAP_CREATE
          (Attr.mapData
            { Def := { m.Def with InnerMapFd := 0, Pinning := 0 }, numaNode := 0,
              Name := m.Name })
          sizeofBpfMapData] ∧
      MapGo.CreateMap k { m2 with Name := n } s = MapGo.CreateMap k m2 s := by
  refine ⟨?_, rfl⟩
  simp [Loader.CreateMap]

/-! ## Pinning -/

/-- C2 (fails on the code): in global-namespace mode on a clean filesystem,
when the kernel rejects the pin-object call with any error number `e`,
`PinMap` still returns nil; the pin request was issued and nothing is pinned. -/
theorem PinMap_rejected_pin_returns_nil (e : Nat) (mapFD : Int) :
    (Loader.PinMap (Sim.rejecting e) (testMap PIN_GLOBAL_NS) mapFD (Sim.clean 5)).result
        = none ∧
      (pinAnswer (Sim.rejecting e) mapFD (Sim.clean 5)).1 = ⟨minusOne, 0, e⟩ ∧
      pinEvent mapFD ∈
        (Loader.PinMap (Sim.rejecting e) (testMap PIN_GLOBAL_NS) mapFD (Sim.clean 5)).trace ∧
      (Loader.PinMap (Sim.rejecting e) (testMap PIN_GLOBAL_NS) mapFD (Sim.clean 5)).state.pins
        = [] := by
  have h := PinMap_global_absent (Sim.rejecting e) (testMap PIN_GLOBAL_NS) mapFD (Sim.clean 5)
    rfl rfl rfl
  rw [h]
  refine ⟨rfl, rfl, by simp, rfl⟩

/-- C3, counterexample: a dangling symbolic link sits at the pin path, so the
path exists, yet `os.Stat` reports it as not existing and `PinMap` goes on to
issue the pin-object system call. -/
theorem PinMap_dangling_link_reaches_kernel :
    Link.entryExists ⟨Sim.clean 5, [globalPinPath]⟩ globalPinPath ∧
      pinEvent 5 ∈
        (Loader.PinMap Link.kernel (testMap PIN_GLOBAL_NS) 5
          ⟨Sim.clean 5, [globalPinPath]⟩).trace :=
  ⟨Or.inl (List.mem_singleton.mpr rfl), by decide⟩

/-- C3, amended: in global-namespace mode, (1) whenever `os.Stat` of the pin
path, asked after the directory creations, answers anything but a not-exist
error (the path is found, or the stat fails otherwise), `PinMap` returns an
error and issues no system call, the found-file error when the directories
were created and the path was found; (2) over any kernel model obeying
`PinLaws` (a successful pin-object call creates its path, `os.Stat` finds an
existing path, directory creation and stat remove nothing), on a clean
filesystem where directory creation succeeds and the kernel accepts the pin
request, a first `PinMap` succeeds, and a second `PinMap` of the same handle,
run in the state the first one left, fails with a conflict error without a
system call, the found-file one when its directory creations succeed. -/
theorem PinMap_refuses_path_seen_by_stat {σ : Type} (k : Kernel σ) (m : Loader.BpfMapData)
    (mapFD : Int) (s : σ) (hm : m.Def.Pinning = PIN_GLOBAL_NS) :
    (IsNotExist (k.Stat globalPinPath (afterMkdirs k s)).1 = false →
      (∃ err, (Loader.PinMap k m mapFD s).result = some err) ∧
      (∀ e ∈ (Loader.PinMap k m mapFD s).trace, e.isSyscall = false) ∧
      (mkdirsOk k s = true → (k.Stat globalPinPath (afterMkdirs k s)).1 = none →
        (Loader.PinMap k m mapFD s).result = some foundError)) ∧
    (∀ pathExists : σ → String → Prop, PinLaws k pathExists → cleanRun k mapFD s = true →
      (Loader.PinMap k m mapFD s).result = none ∧
      (∃ err, (Loader.PinMap k m mapFD (Loader.PinMap k m mapFD s).state).result = some err ∧
        isConflictError err = true) ∧
      (∀ e ∈ (Loader.PinMap k m mapFD (Loader.PinMap k m mapFD s).state).trace,
        e.isSyscall = false) ∧
      (mkdirsOk k (Loader.PinMap k m mapFD s).state = true →
        (Loader.PinMap k m mapFD (Loader.PinMap k m mapFD s).state).result
          = some foundError)) := by
  constructor
  · intro hs
    refine ⟨?_, ?_, fun hd hst => by rw [PinMap_global_found k m mapFD s hm hd hst]⟩
    all_goals
      have hne : PIN_GLOBAL_NS ≠ PIN_NONE := by decide
      unfold afterMkdirs at hs
      unfold Loader.PinMap
      simp only [hm, hne, if_false, if_true, tcDir_append, dir_globalPinPath]
      cases h1 : (k.MkdirAll "/sys/fs/bpf/tc" 0o755 s).1 with
      | some err => simp [Event.isSyscall]
      | none =>
        cases h2 : (k.MkdirAll globalsDir 0o755 (k.MkdirAll "/sys/fs/bpf/tc" 0o755 s).2).1 with
        | some err => simp [Event.isSyscall]
        | none =>
          cases h3 : (k.Stat globalPinPath (k.MkdirAll globalsDir 0o755
              (k.MkdirAll "/sys/fs/bpf/tc" 0o755 s).2).2).1 with
          | none => simp [Event.isSyscall]
          | some err =>
            rw [h3] at hs
            simp [hs, Event.isSyscall]
  · intro pathExists laws hc
    simp only [cleanRun, Bool.and_eq_true, beq_iff_eq] at hc
    obtain ⟨⟨hd, hs⟩, hp⟩ := hc
    have h1 := PinMap_global_absent k m mapFD s hm hd hs
    have hex : pathExists (Loader.PinMap k m mapFD s).state globalPinPath := by
      rw [h1]
      have := laws.pin_creates _ (pinRequest mapFD) sizeofBpfMapPin hp
      rw [cString_pinRequest] at this
      exact this
    obtain ⟨a, b, _⟩ := PinMap_global_existing k pathExists laws m mapFD _ hm hex
    refine ⟨by rw [h1], a, b, ?_⟩
    intro hd2
    have e1 := laws.mkdir_keeps _ "/sys/fs/bpf/tc" 0o755 globalPinPath hex
    have e2 := laws.mkdir_keeps _ globalsDir 0o755 globalPinPath e1
    have e3 := laws.stat_found _ globalPinPath e2
    rw [PinMap_global_found k m mapFD _ hm hd2 e3]

/-- C3, witness: on the reference kernel, a filesystem in which `os.Stat`
finds the pin path makes `PinMap` fail with the found-file error, and pinning
handle 5 twice from a clean filesystem succeeds the first time and fails with
the found-file error, without a system call, the second time. -/
theorem PinMap_refuses_path_seen_by_stat_witness :
    IsNotExist (Sim.kernel.Stat globalPinPath
        (afterMkdirs Sim.kernel ⟨[], [globalPinPath], [5]⟩)).1 = false ∧
      (Loader.PinMap Sim.kernel (testMap PIN_GLOBAL_NS) 5
        ⟨[], [globalPinPath], [5]⟩).result = some foundError ∧
      cleanRun Sim.kernel 5 (Sim.clean 5) = true ∧
      (Loader.PinMap Sim.kernel (testMap PIN_GLOBAL_NS) 5 (Sim.clean 5)).result = none ∧
      (Loader.PinMap Sim.kernel (testMap PIN_GLOBAL_NS) 5
        (Loader.PinMap Sim.kernel (testMap PIN_GLOBAL_NS) 5 (Sim.clean 5)).state).result
          = some foundError ∧
      (∀ e ∈ (Loader.PinMap Sim.kernel (testMap PIN_GLOBAL_NS) 5
        (Loader.PinMap Sim.kernel (testMap PIN_GLOBAL_NS) 5 (Sim.clean 5)).state).trace,
          e.isSyscall = false) :=
  have h := (PinMap_refuses_path_seen_by_stat Sim.kernel (testMap PIN_GLOBAL_NS) 5
    (Sim.clean 5) rfl).2 Sim.pathExists Sim.pinLaws (by decide)
  have g := (PinMap_refuses_path_seen_by_stat Sim.kernel (testMap PIN_GLOBAL_NS) 5
    ⟨[], [globalPinPath], [5]⟩ rfl).1 (by decide)
  ⟨by decide, g.2.2 (by decide) (by decide), by decide, h.1, h.2.2.2 (by decide), h.2.2.1⟩

/-- C4: with pinning mode none, `PinMap` returns nil, invokes no primitive
(no directory creation, no stat, no system call) and leaves the world as it
was. -/
theorem PinMap_none_is_noop {σ : Type} (k : Kernel σ) (m : Loader.BpfMapData) (mapFD : Int)
    (s : σ) (hm : m.Def.Pinning = PIN_NONE) :
    Loader.PinMap k m mapFD s = ⟨none, s, []⟩ := by
  unfold Loader.PinMap
  rw [if_pos hm]

/-- C4, witness: the scenario map with mode none on the reference kernel. -/
theorem PinMap_none_is_noop_witness :
    (testMap PIN_NONE).Def.Pinning = PIN_NONE ∧
      Loader.PinMap Sim.kernel (testMap PIN_NONE) 5 (Sim.clean 5) = ⟨none, Sim.clean 5, []⟩ :=
  ⟨rfl, PinMap_none_is_noop Sim.kernel (testMap PIN_NONE) 5 (Sim.clean 5) rfl⟩

/-- C5, counterexample: with mode object-namespace, on a clean filesystem
where directory creation and the kernel call would succeed, `PinMap` reports
success without creating a directory or issuing the pin-object call; the same
holds for mode custom-namespace. -/
theorem PinMap_object_ns_does_nothing :
    cleanRun Sim.kernel 5 (Sim.clean 5) = true ∧
      Loader.PinMap Sim.kernel (testMap PIN_OBJECT_NS) 5 (Sim.clean 5)
        = ⟨none, Sim.clean 5, []⟩ ∧
      Loader.PinMap Sim.kernel (testMap PIN_CUSTOM_NS) 5 (Sim.clean 5)
        = ⟨none, Sim.clean 5, []⟩ := by
  decide

/-- C5, amended: only mode global-namespace enters the pinning sequence. In
that mode, on a clean filesystem where directory creation and the kernel call
succeed, `PinMap` creates `/sys/fs/bpf/tc` and `/sys/fs/bpf/tc/globals`, stats
the pin path and issues the pin-object call for the handle (its low 32 bits),
in this order, and returns nil. In every other mode different from none
(object-namespace, custom-namespace) it returns nil and does nothing. -/
theorem PinMap_sequence_only_global {σ : Type} (k : Kernel σ) (m : Loader.BpfMapData)
    (mapFD : Int) (s : σ) :
    (m.Def.Pinning = PIN_GLOBAL_NS → cleanRun k mapFD s = true →
      (Loader.PinMap k m mapFD s).result = none ∧
      (Loader.PinMap k m mapFD s).trace =
        [Event.mkdirAll "/sys/fs/bpf/tc" 0o755, Event.mkdirAll "/sys/fs/bpf/tc/globals" 0o755,
          Event.stat globalPinPath,
          Event.syscall SYS_BPF BPF_OBJ_PIN
            (Attr.mapPin ⟨globalPinPath ++ "\x00", uint32OfInt mapFD, 0⟩) sizeofBpfMapPin]) ∧
    (m.Def.Pinning ≠ PIN_NONE → m.Def.Pinning ≠ PIN_GLOBAL_NS →
      Loader.PinMap k m mapFD s = ⟨none, s, []⟩) := by
  constructor
  · intro hm hc
    simp only [cleanRun, Bool.and_eq_true, beq_iff_eq] at hc
    rw [PinMap_global_absent k m mapFD s hm hc.1.1 hc.1.2]
    exact ⟨rfl, rfl⟩
  · intro h0 h2
    unfold Loader.PinMap
    rw [if_neg h0, if_neg h2]

/-- C5, witness: the global-namespace sequence and the object-namespace no-op
on the reference kernel. -/
theorem PinMap_sequence_only_global_witness :
    (Loader.PinMap Sim.kernel (testMap PIN_GLOBAL_NS) 5 (Sim.clean 5)).trace =
        [Event.mkdirAll "/sys/fs/bpf/tc" 0o755, Event.mkdirAll "/sys/fs/bpf/tc/globals" 0o755,
          Event.stat globalPinPath,
          Event.syscall SYS_BPF BPF_OBJ_PIN
            (Attr.mapPin ⟨globalPinPath ++ "\x00", 5, 0⟩) sizeofBpfMapPin] ∧
      Loader.PinMap Sim.kernel (testMap PIN_OBJECT_NS) 5 (Sim.clean 5)
        = ⟨none, Sim.clean 5, []⟩ :=
  ⟨((PinMap_sequence_only_global Sim.kernel (testMap PIN_GLOBAL_NS) 5 (Sim.clean 5)).1
      rfl (by decide)).2,
    (PinMap_sequence_only_global Sim.kernel (testMap PIN_OBJECT_NS) 5 (Sim.clean 5)).2
      (by decide) (by decide)⟩

/-- C6, counterexample: for the map named `test_map` in global-namespace mode
on a clean filesystem, `PinMap` succeeds but the only path it pins is
`/sys/fs/bpf/tc/globals/my-name`, not `/sys/fs/bpf/tc/globals/test_map`; a
second map with a different name is then refused at that same path. -/
theorem PinMap_test_map_pinned_at_my_name :
    (Loader.PinMap Sim.kernel (testMap PIN_GLOBAL_NS) 5 (Sim.clean 5)).result = none ∧
      (Loader.PinMap Sim.kernel (testMap PIN_GLOBAL_NS) 5 (Sim.clean 5)).state.pins
        = ["/sys/fs/bpf/tc/globals/my-name"] ∧
      (Loader.PinMap Sim.kernel (testMap PIN_GLOBAL_NS) 5 (Sim.clean 5)).trace.getLast?
        = some (Event.syscall SYS_BPF BPF_OBJ_PIN
            (Attr.mapPin ⟨"/sys/fs/bpf/tc/globals/my-name\x00", 5, 0⟩) sizeofBpfMapPin) ∧
      (Loader.PinMap Sim.kernel ⟨hashDef PIN_GLOBAL_NS, 0, name15⟩ 5
        (Loader.PinMap Sim.kernel (testMap PIN_GLOBAL_NS) 5 (Sim.clean 5)).state).result
        = some (GoError.errorf "aborting, found file at %q"
            [FmtArg.str "/sys/fs/bpf/tc/globals/my-name"]) := by
  decide

/-- C6, amended: the pin path does not depend on the map. For every map in
global-namespace mode, whatever its name, on a clean filesystem where
directory creation and the kernel call succeed, `PinMap` returns nil, the
path passed to the pin-object call is `/sys/fs/bpf/tc/globals/my-name`, and
in a kernel model obeying `PinLaws` that path exists afterwards; a map with a
different name and the same mode yields the same outcome, hence the same
path. -/
theorem PinMap_path_is_fixed {σ : Type} (k : Kernel σ) (pathExists : σ → String → Prop)
    (laws : PinLaws k pathExists) (m m2 : Loader.BpfMapData) (mapFD : Int) (s : σ)
    (hm : m.Def.Pinning = PIN_GLOBAL_NS) (hm2 : m2.Def.Pinning = PIN_GLOBAL_NS)
    (hc : cleanRun k mapFD s = true) :
    (Loader.PinMap k m mapFD s).result = none ∧
      (Loader.PinMap k m mapFD s).trace.getLast? =
        some (Event.syscall SYS_BPF BPF_OBJ_PIN
          (Attr.mapPin ⟨"/sys/fs/bpf/tc/globals/my-name\x00", uint32OfInt mapFD, 0⟩)
          sizeofBpfMapPin) ∧
      pathExists (Loader.PinMap k m mapFD s).state "/sys/fs/bpf/tc/globals/my-name" ∧
      Loader.PinMap k m2 mapFD s = Loader.PinMap k m mapFD s := by
  simp only [cleanRun, Bool.and_eq_true, beq_iff_eq] at hc
  obtain ⟨⟨hd, hs⟩, hp⟩ := hc
  rw [PinMap_global_absent k m mapFD s hm hd hs, PinMap_global_absent k m2 mapFD s hm2 hd hs]
  refine ⟨rfl, rfl, ?_, rfl⟩
  have := laws.pin_creates _ (pinRequest mapFD) sizeofBpfMapPin hp
  rw [cString_pinRequest] at this
  exact this

/-- C6, witness: the maps named `test_map` and `aaaaaaaaaaaaaaa` on the
reference kernel. -/
theorem PinMap_path_is_fixed_witness :
    cleanRun Sim.kernel 5 (Sim.clean 5) = true ∧
      Sim.pathExists (Loader.PinMap Sim.kernel (testMap PIN_GLOBAL_NS) 5 (Sim.clean 5)).state
        "/sys/fs/bpf/tc/globals/my-name" ∧
      Loader.PinMap Sim.kernel ⟨hashDef PIN_GLOBAL_NS, 0, name15⟩ 5 (Sim.clean 5)
        = Loader.PinMap Sim.kernel (testMap PIN_GLOBAL_NS) 5 (Sim.clean 5) :=
  have h := PinMap_path_is_fixed Sim.kernel Sim.pathExists Sim.pinLaws (testMap PIN_GLOBAL_NS)
    ⟨hashDef PIN_GLOBAL_NS, 0, name15⟩ 5 (Sim.clean 5) rfl rfl (by decide)
  ⟨by decide, h.2.2.1, h.2.2.2⟩

/-! ## Program loading -/

/-- C7, counterexample: a blob of 9 bytes is not rejected; the load-program
system call is issued with an instruction count of 1 and the handle of the
kernel is returned with a nil error. -/
theorem LoadProg_nine_bytes_reaches_kernel :
    Loader.LoadProg Sim.kernel "xdp" ⟨.ok [1, 2, 3, 4, 5, 6, 7, 8, 9]⟩ "GPL" (Sim.clean 5) =
      ⟨.returned (6, none), ⟨[], [], [6, 5]⟩,
        [Event.syscall SYS_BPF BPF_PROG_LOAD
          (Attr.prog
            { ProgType := BPF_PROG_TYPE_XDP, InsnCnt := 1,
              Insns := [1, 2, 3, 4, 5, 6, 7, 8, 9], License := "licenseStr", LogLevel := 1,
              LogSize := 65534, LogBuf := 65535, KernVersion := 0 })
          sizeofBPFAttr]⟩ := by
  decide

/-- C7, amended: `LoadProg` validates no blob length. For every blob whose
length is not a multiple of 8 it issues exactly one load-program system call,
with the whole blob and an instruction count of `len / 8` rounded down
(modulo 2^32), and returns what the kernel answers: `(0, errno)` when the
error number is non-zero, the handle with a nil error otherwise. -/
theorem LoadProg_unaligned_is_loaded {σ : Type} (k : Kernel σ) (progType : String)
    (data : List Nat) (licenseStr : String) (s : σ) (hlen : data.length % 8 ≠ 0) :
    (loadRequest progType data).Insns = data ∧
      (loadRequest progType data).InsnCnt = (data.length / 8) % 2 ^ 32 ∧
      (Loader.LoadProg k progType ⟨.ok data⟩ licenseStr s).trace =
        [Event.syscall SYS_BPF BPF_PROG_LOAD (Attr.prog (loadRequest progType data))
          sizeofBPFAttr] ∧
      (Loader.LoadProg k progType ⟨.ok data⟩ licenseStr s).result =
        loadAnswer (k.Syscall SYS_BPF BPF_PROG_LOAD (Attr.prog (loadRequest progType data))
          sizeofBPFAttr s).1 := by
  have hne : data.length ≠ 0 := by
    intro h
    rw [h] at hlen
    exact hlen rfl
  rw [LoadProg_nonempty k progType data licenseStr s hne]
  exact ⟨rfl, rfl, rfl, rfl⟩

/-- C7, witness: a blob of 9 bytes on the reference kernel. -/
theorem LoadProg_unaligned_is_loaded_witness :
    [1, 2, 3, 4, 5, 6, 7, 8, 9].length % 8 ≠ 0 ∧
      (loadRequest "xdp" [1, 2, 3, 4, 5, 6, 7, 8, 9]).InsnCnt = 1 ∧
      (Loader.LoadProg Sim.kernel "xdp" ⟨.ok [1, 2, 3, 4, 5, 6, 7, 8, 9]⟩ "GPL"
        (Sim.clean 5)).trace =
        [Event.syscall SYS_BPF BPF_PROG_LOAD
          (Attr.prog (loadRequest "xdp" [1, 2, 3, 4, 5, 6, 7, 8, 9])) sizeofBPFAttr] ∧
      (Loader.LoadProg Sim.kernel "xdp" ⟨.ok [1, 2, 3, 4, 5, 6, 7, 8, 9]⟩ "GPL"
        (Sim.clean 5)).result = .returned (6, none) :=
  have h := LoadProg_unaligned_is_loaded Sim.kernel "xdp" [1, 2, 3, 4, 5, 6, 7, 8, 9] "GPL"
    (Sim.clean 5) (by decide)
  ⟨by decide, h.2.1, h.2.2.1, h.2.2.2.trans (by decide)⟩

/-- C8 (fails on the code): for a section whose data is empty, `LoadProg`
returns no validation error: it panics with an index out of range at the
first byte of the blob, before any system call. -/
theorem LoadProg_empty_blob_panics {σ : Type} (k : Kernel σ) (progType : String)
    (licenseStr : String) (s : σ) :
    Loader.LoadProg k progType ⟨.ok []⟩ licenseStr s =
      ⟨.panicked "runtime error: index out of range [0] with length 0", s, []⟩ := by
  rfl

/-- C10: the load request does not depend on the `licenseStr` argument. For
every program type, section, kernel and state, two values of `licenseStr`
give the same outcome (result, final state, system calls issued), and the
license of every load request issued is the literal `licenseStr`. -/
theorem LoadProg_license_is_literal {σ : Type} (k : Kernel σ) (progType : String)
    (dataProg : Section) (license1 license2 : String) (s : σ) :
    Loader.LoadProg k progType dataProg license1 s =
        Loader.LoadProg k progType dataProg license2 s ∧
      ∀ trap cmd a size,
        Event.syscall trap cmd (Attr.prog a) size ∈
          (Loader.LoadProg k progType dataProg license1 s).trace →
        a.License = "licenseStr" := by
  refine ⟨rfl, ?_⟩
  intro trap cmd a size h
  obtain ⟨d⟩ := dataProg
  cases d with
  | error err => simp [Loader.LoadProg] at h
  | ok data =>
    by_cases hne : data.length = 0
    · simp [Loader.LoadProg, hne] at h
    · rw [LoadProg_nonempty k progType data license1 s hne] at h
      simp only [List.mem_singleton, Event.syscall.injEq, Attr.prog.injEq] at h
      rw [h.2.2.1]
      rfl

end Gobpf
